import Mathlib

/-!
# The analysis front end of morphie (`frontend.cc`)

A shallow embedding of `frontend.cc`: the file utilities `GetCSVParser`,
`GetJsonDoc` and `WriteToFile`, the three analyzer drivers
`RunCurioAnalyzer`, `RunPlasoAnalyzer`, `RunMailAccessAnalyzer`, and the entry
point `Run`.

The front end is orchestration code: everything it does is a call into a
collaborator (the file streams of the C++ library, the JSON reader, the three
analyzers).  The embedding makes that explicit.

* Every call the front end makes is appended to a chronological list of
  `Event`s, the history.
* The answer of a collaborator is given by an `Env`, a record of functions.
  Each function receives the history up to the call, so an answer may depend
  on everything that happened earlier (a second write to a path may fail
  where the first one succeeded), and on the arguments of the call.
* Every embedded function takes the history at its entry and returns the
  history at its exit next to its C++ result.

Objects that the front end only moves around (open streams, the parsed JSON
document, the CSV parser, the readers of the Plaso analyzer) are represented
by the data the front end built them from.
-/

namespace morphie

/-! ## Status values (`util/status.h`) -/

/-- Modelled from the spec: the status codes of `util/status.h`, a header that
is not part of the sources at hand.  The spec lists the codes in use as `OK`,
`INVALID_ARGUMENT`, `EXTERNAL` and `INTERNAL`. -/
inductive Code where
  | OK
  | INVALID_ARGUMENT
  | EXTERNAL
  | INTERNAL
deriving DecidableEq, Repr

/-- Modelled from the spec: `util::Status`, "a result value combining a
success/failure code and an explanatory message". -/
structure Status where
  code : Code
  message : String
deriving DecidableEq, Repr

/-- The constant `util::Status::OK`. -/
def Status.OK : Status := ⟨Code.OK, ""⟩

/-- The method `Status::ok()`. -/
def Status.ok (s : Status) : Bool := s.code == Code.OK

/-! ## The configuration (`AnalysisOptions`) -/

/-- Modelled from the spec: the nested message `plaso_options` with its
boolean `show_all_sources`. -/
structure PlasoOptions where
  show_all_sources : Bool
deriving DecidableEq, Repr

/-- Modelled from the spec: the `oneof` input source of `AnalysisOptions`.  At
most one of the three paths is set; `NOT_SET` is the case of none. -/
inductive InputFile where
  | NOT_SET
  | csv_file (path : String)
  | json_file (path : String)
  | json_stream_file (path : String)
deriving DecidableEq, Repr

/-- The discriminant `AnalysisOptions::InputFileCase`. -/
inductive InputFileCase where
  | INPUT_FILE_NOT_SET
  | kCsvFile
  | kJsonFile
  | kJsonStreamFile
deriving DecidableEq, Repr

/-- Modelled from the spec: the configuration message `AnalysisOptions`, whose
generated class is not part of the sources at hand.  Fields: the optional
selector `analyzer`, the `oneof` input source, the optional nested
`plaso_options`, and the two optional output destinations.  `none` is an unset
field. -/
structure AnalysisOptions where
  analyzer_ : Option String
  input_file_ : InputFile
  plaso_options_ : Option PlasoOptions
  output_dot_file_ : Option String
  output_pbtxt_file_ : Option String
deriving DecidableEq, Repr

namespace AnalysisOptions

/-- Presence test `has_analyzer()`. -/
def has_analyzer (o : AnalysisOptions) : Bool := o.analyzer_.isSome

/-- Getter `analyzer()`: the value, or the empty string of an unset field. -/
def analyzer (o : AnalysisOptions) : String := o.analyzer_.getD ""

/-- Discriminant `input_file_case()`. -/
def input_file_case (o : AnalysisOptions) : InputFileCase :=
  match o.input_file_ with
  | InputFile.NOT_SET => InputFileCase.INPUT_FILE_NOT_SET
  | InputFile.csv_file _ => InputFileCase.kCsvFile
  | InputFile.json_file _ => InputFileCase.kJsonFile
  | InputFile.json_stream_file _ => InputFileCase.kJsonStreamFile

/-- Presence test `has_csv_file()`. -/
def has_csv_file (o : AnalysisOptions) : Bool :=
  o.input_file_case == InputFileCase.kCsvFile

/-- Presence test `has_json_file()`. -/
def has_json_file (o : AnalysisOptions) : Bool :=
  o.input_file_case == InputFileCase.kJsonFile

/-- Getter `csv_file()`. -/
def csv_file (o : AnalysisOptions) : String :=
  match o.input_file_ with
  | InputFile.csv_file p => p
  | _ => ""

/-- Getter `json_file()`. -/
def json_file (o : AnalysisOptions) : String :=
  match o.input_file_ with
  | InputFile.json_file p => p
  | _ => ""

/-- Getter `json_stream_file()`. -/
def json_stream_file (o : AnalysisOptions) : String :=
  match o.input_file_ with
  | InputFile.json_stream_file p => p
  | _ => ""

/-- Presence test `has_plaso_options()`. -/
def has_plaso_options (o : AnalysisOptions) : Bool := o.plaso_options_.isSome

/-- Getter `plaso_options()`: the nested message, or its default instance. -/
def plaso_options (o : AnalysisOptions) : PlasoOptions :=
  o.plaso_options_.getD ⟨false⟩

/-- Presence test `has_output_dot_file()`. -/
def has_output_dot_file (o : AnalysisOptions) : Bool := o.output_dot_file_.isSome

/-- Getter `output_dot_file()`. -/
def output_dot_file (o : AnalysisOptions) : String := o.output_dot_file_.getD ""

/-- Presence test `has_output_pbtxt_file()`. -/
def has_output_pbtxt_file (o : AnalysisOptions) : Bool := o.output_pbtxt_file_.isSome

/-- Getter `output_pbtxt_file()`. -/
def output_pbtxt_file (o : AnalysisOptions) : String := o.output_pbtxt_file_.getD ""

end AnalysisOptions

/-! ## Collaborators, events and the environment -/

/-- An input stream `std::ifstream(filename)`: the path it was constructed on
and whether the open succeeded. -/
structure IfStream where
  filename : String
  is_open : Bool
deriving DecidableEq, Repr

/-- The `Json::Value` that `Json::Reader::parse` fills from a stream. -/
structure JsonDoc where
  stream : IfStream
deriving DecidableEq, Repr

/-- The object `util::CSVParser(csv_stream)`.  A `unique_ptr` to it is an
`Option`, with `none` for `nullptr`. -/
structure CSVParser where
  stream : IfStream
deriving DecidableEq, Repr

/-- The two readers handed to `PlasoAnalyzer::Initialize`. -/
inductive PlasoInput where
  | FullJson (input_stream : IfStream)
  | StreamJson (input_stream : IfStream)
deriving DecidableEq, Repr

/-- The three analyzers. -/
inductive Analyzer where
  | curio
  | mail
  | plaso
deriving DecidableEq, Repr

/-- The four rendering methods the front end calls. -/
inductive Renderer where
  | DependencyGraphAsDot
  | AccessGraphAsDot
  | PlasoGraphDot
  | PlasoGraphPbTxt
deriving DecidableEq, Repr

/-- One call made by the front end.  Stream operations carry their outcome. -/
inductive Event where
  | ifstream_open (filename : String) (ok : Bool)
  | ifstream_close (filename : String)
  | Json_parse (filename : String)
  | Initialize (a : Analyzer)
  | Build (a : Analyzer)
  | Render (r : Renderer)
  | WriteToFile (filename contents : String)
  | ofstream_open (filename : String) (ok : Bool)
  | ofstream_write (filename contents : String) (ok : Bool)
  | ofstream_close (filename : String) (ok : Bool)
deriving DecidableEq, Repr

/-- The answers of the collaborators.  The first argument of every field is
the history up to the call. -/
structure Env where
  /-- Does `std::ifstream(filename)` open? -/
  ifstream_open : List Event → String → Bool
  /-- Result of `CurioAnalyzer::Initialize(json_doc)`. -/
  curio_Initialize : List Event → JsonDoc → Status
  /-- Result of `CurioAnalyzer::BuildDependencyGraph()`. -/
  curio_BuildDependencyGraph : List Event → Status
  /-- Result of `CurioAnalyzer::DependencyGraphAsDot()`. -/
  curio_DependencyGraphAsDot : List Event → String
  /-- Result of `AccessAnalyzer::Initialize(parser)`. -/
  access_Initialize : List Event → Option CSVParser → Status
  /-- Result of `AccessAnalyzer::BuildAccessGraph()`. -/
  access_BuildAccessGraph : List Event → Status
  /-- Result of `AccessAnalyzer::AccessGraphAsDot()`. -/
  access_AccessGraphAsDot : List Event → String
  /-- Result of `PlasoAnalyzer(show_all_sources).Initialize(reader)`. -/
  plaso_Initialize : List Event → Bool → PlasoInput → Status
  /-- Result of `PlasoAnalyzer::PlasoGraphDot()`. -/
  plaso_PlasoGraphDot : List Event → String
  /-- Result of `PlasoAnalyzer::PlasoGraphPbTxt()`. -/
  plaso_PlasoGraphPbTxt : List Event → String
  /-- Is the `std::ofstream` good after `open(filename)`? -/
  ofstream_open : List Event → String → Bool
  /-- Is the `std::ofstream` good after `out_file << contents`? -/
  ofstream_write : List Event → String → String → Bool
  /-- Is the `std::ofstream` good after `close()`? -/
  ofstream_close : List Event → String → Bool

/-! ## Error messages -/

/-- The constant `kInvalidAnalyzerErr`. -/
def kInvalidAnalyzerErr : String :=
  "Invalid analysis. The analysis must be one of 'curio', 'mail', or 'plaso'."

/-- The constant `kOpenFileErr`. -/
def kOpenFileErr : String := "Error opening file: "

/-- The constant `kInvalidPlasoOption`. -/
def kInvalidPlasoOption : String :=
  "Unsupported input parameter. Plaso analyzer supports only json_file and json_stream_file."

/-! ## File utilities -/

/-- `GetCSVParser(filename)`: constructs the input stream; a stream that did
not open gives `EXTERNAL` and no parser, an open one is wrapped in a parser.
The test `csv_stream == nullptr || !*csv_stream` is the test that the stream,
just constructed, failed to open. -/
def GetCSVParser (E : Env) (h : List Event) (filename : String) :
    (Status × Option CSVParser) × List Event :=
  let opened := E.ifstream_open h filename
  let csv_stream : IfStream := ⟨filename, opened⟩
  let h1 := h ++ [Event.ifstream_open filename opened]
  if !csv_stream.is_open then
    ((⟨Code.EXTERNAL, kOpenFileErr ++ filename⟩, none), h1)
  else
    ((Status.OK, some ⟨csv_stream⟩), h1)

/-- `GetJsonDoc(filename)`: constructs the input stream and parses it into a
document.  The state of the stream is not looked at. -/
def GetJsonDoc (E : Env) (h : List Event) (filename : String) :
    JsonDoc × List Event :=
  let opened := E.ifstream_open h filename
  let json_stream : IfStream := ⟨filename, opened⟩
  let h1 := h ++ [Event.ifstream_open filename opened]
  (⟨json_stream⟩, h1 ++ [Event.Json_parse filename])

/-- `WriteToFile(filename, contents)`: open, write, close, with the state of
the stream tested after each of the three (`if (!out_file)`).  The call itself
is recorded first; the close that the destructor performs on an early return
is not an event. -/
def WriteToFile (E : Env) (h : List Event) (filename contents : String) :
    Status × List Event :=
  let h0 := h ++ [Event.WriteToFile filename contents]
  let opened := E.ofstream_open h0 filename
  let h1 := h0 ++ [Event.ofstream_open filename opened]
  if !opened then
    (⟨Code.EXTERNAL, "Error opening file: " ++ filename⟩, h1)
  else
    let written := E.ofstream_write h1 filename contents
    let h2 := h1 ++ [Event.ofstream_write filename contents written]
    if !written then
      (⟨Code.INTERNAL, "Error writing to file: " ++ filename⟩, h2)
    else
      let closed := E.ofstream_close h2 filename
      let h3 := h2 ++ [Event.ofstream_close filename closed]
      if !closed then
        (⟨Code.EXTERNAL, "Error closing file: " ++ filename⟩, h3)
      else
        (Status.OK, h3)

/-! ## The analyzer drivers

Each driver receives the current value of `*output_graph` and returns its
value at exit. -/

/-- `RunCurioAnalyzer(options, output_graph)`. -/
def RunCurioAnalyzer (E : Env) (options : AnalysisOptions) (output_graph : String)
    (h : List Event) : Status × String × List Event :=
  if !options.has_json_file then
    (⟨Code.INVALID_ARGUMENT, "The Curio analyzer requires a JSON input file."⟩,
      output_graph, h)
  else
    let (json_doc, h1) := GetJsonDoc E h options.json_file
    let status := E.curio_Initialize h1 json_doc
    let h2 := h1 ++ [Event.Initialize Analyzer.curio]
    if !status.ok then
      (status, output_graph, h2)
    else
      let status := E.curio_BuildDependencyGraph h2
      let h3 := h2 ++ [Event.Build Analyzer.curio]
      if !status.ok then
        (status, output_graph, h3)
      else
        (status, E.curio_DependencyGraphAsDot h3,
          h3 ++ [Event.Render Renderer.DependencyGraphAsDot])

/-- The `switch` of `RunPlasoAnalyzer`: an early `return` is `Sum.inl`, a
`break` is `Sum.inr` with the status of `Initialize` and the input stream. -/
def RunPlasoAnalyzer_switch (E : Env) (options : AnalysisOptions)
    (show_all_sources : Bool) (h : List Event) :
    (Status × List Event) ⊕ (Status × IfStream × List Event) :=
  match options.input_file_case with
  | InputFileCase.kJsonFile =>
    let opened := E.ifstream_open h options.json_file
    let input_stream : IfStream := ⟨options.json_file, opened⟩
    let h1 := h ++ [Event.ifstream_open options.json_file opened]
    if !input_stream.is_open then
      Sum.inl (⟨Code.EXTERNAL, kOpenFileErr ++ options.json_file⟩, h1)
    else
      let status := E.plaso_Initialize h1 show_all_sources (PlasoInput.FullJson input_stream)
      Sum.inr (status, input_stream, h1 ++ [Event.Initialize Analyzer.plaso])
  | InputFileCase.kJsonStreamFile =>
    let opened := E.ifstream_open h options.json_stream_file
    let input_stream : IfStream := ⟨options.json_stream_file, opened⟩
    let h1 := h ++ [Event.ifstream_open options.json_stream_file opened]
    if !input_stream.is_open then
      Sum.inl (⟨Code.EXTERNAL, kOpenFileErr ++ options.json_stream_file⟩, h1)
    else
      let status := E.plaso_Initialize h1 show_all_sources (PlasoInput.StreamJson input_stream)
      Sum.inr (status, input_stream, h1 ++ [Event.Initialize Analyzer.plaso])
  | _ =>
    Sum.inl (⟨Code.EXTERNAL, kInvalidPlasoOption⟩, h)

/-- `RunPlasoAnalyzer(options, output_graph)`. -/
def RunPlasoAnalyzer (E : Env) (options : AnalysisOptions) (output_graph : String)
    (h : List Event) : Status × String × List Event :=
  let show_all_sources :=
    if options.has_plaso_options then options.plaso_options.show_all_sources else false
  match RunPlasoAnalyzer_switch E options show_all_sources h with
  | Sum.inl (status, h1) => (status, output_graph, h1)
  | Sum.inr (status, input_stream, h1) =>
    if !status.ok then
      (status, output_graph, h1)
    else
      let h2 := h1 ++ [Event.Build Analyzer.plaso]
      let h3 := h2 ++ [Event.ifstream_close input_stream.filename]
      if options.has_output_dot_file then
        (Status.OK, E.plaso_PlasoGraphDot h3, h3 ++ [Event.Render Renderer.PlasoGraphDot])
      else if options.has_output_pbtxt_file then
        (Status.OK, E.plaso_PlasoGraphPbTxt h3, h3 ++ [Event.Render Renderer.PlasoGraphPbTxt])
      else
        (Status.OK, output_graph, h3)

/-- `RunMailAccessAnalyzer(options, output_graph)`. -/
def RunMailAccessAnalyzer (E : Env) (options : AnalysisOptions) (output_graph : String)
    (h : List Event) : Status × String × List Event :=
  if !options.has_csv_file then
    (⟨Code.INVALID_ARGUMENT, "The access analyzer requires a CSV input file."⟩,
      output_graph, h)
  else
    let (result, h1) := GetCSVParser E h options.csv_file
    let status := result.1
    if !status.ok then
      (status, output_graph, h1)
    else
      let status := E.access_Initialize h1 result.2
      let h2 := h1 ++ [Event.Initialize Analyzer.mail]
      if !status.ok then
        (status, output_graph, h2)
      else
        let status := E.access_BuildAccessGraph h2
        let h3 := h2 ++ [Event.Build Analyzer.mail]
        if !status.ok then
          (status, output_graph, h3)
        else
          (Status.OK, E.access_AccessGraphAsDot h3,
            h3 ++ [Event.Render Renderer.AccessGraphAsDot])

/-! ## The entry point -/

/-- The tail of `Run` after the analyzer has returned: "Write the output of
the analysis and return." -/
def Run_write (E : Env) (options : AnalysisOptions)
    (r : Status × String × List Event) : Status × List Event :=
  let status := r.1
  let output_graph := r.2.1
  let h := r.2.2
  if !status.ok || output_graph == "" then
    (status, h)
  else
    let (status, h) :=
      if options.output_dot_file != "" then
        WriteToFile E h options.output_dot_file output_graph
      else (status, h)
    let (status, h) :=
      if options.output_pbtxt_file != "" then
        WriteToFile E h options.output_pbtxt_file output_graph
      else (status, h)
    (status, h)

/-- `Run(options)`: invokes the selected analyzer and writes its graph.  The
history starts empty and `output_graph` starts as the empty string. -/
def Run (E : Env) (options : AnalysisOptions) : Status × List Event :=
  if !options.has_analyzer then
    (⟨Code.INVALID_ARGUMENT, kInvalidAnalyzerErr⟩, [])
  else if options.analyzer == "curio" then
    Run_write E options (RunCurioAnalyzer E options "" [])
  else if options.analyzer == "mail" then
    Run_write E options (RunMailAccessAnalyzer E options "" [])
  else if options.analyzer == "plaso" then
    Run_write E options (RunPlasoAnalyzer E options "" [])
  else
    (⟨Code.INVALID_ARGUMENT, kInvalidAnalyzerErr⟩, [])

/-! ## Observations on a history -/

/-- The invocations of the output writer recorded in a history, in order: the
path and the text of every call of `WriteToFile`. -/
def writerCalls (h : List Event) : List (String × String) :=
  h.filterMap fun e =>
    match e with
    | Event.WriteToFile filename contents => some (filename, contents)
    | _ => none

/-- The rendering methods invoked in a history, in order. -/
def renders (h : List Event) : List Renderer :=
  h.filterMap fun e =>
    match e with
    | Event.Render r => some r
    | _ => none

/-- The analyzers whose build step was invoked in a history, in order. -/
def builds (h : List Event) : List Analyzer :=
  h.filterMap fun e =>
    match e with
    | Event.Build a => some a
    | _ => none

/-- Is the event an operation on an output file (a call of the writer or one
of its stream operations)? -/
def Event.isOutput : Event → Bool
  | Event.WriteToFile _ _ => true
  | Event.ofstream_open _ _ => true
  | Event.ofstream_write _ _ _ => true
  | Event.ofstream_close _ _ => true
  | _ => false

/-- The texts that were sent to an output stream in a history, with the path
of the stream. -/
def streamWrites (h : List Event) : List (String × String) :=
  h.filterMap fun e =>
    match e with
    | Event.ofstream_write filename contents _ => some (filename, contents)
    | _ => none

/-- The path of the output file an event operates on; `none` for an event
that is not an operation on an output file. -/
def Event.outputPath : Event → Option String
  | Event.WriteToFile filename _ => some filename
  | Event.ofstream_open filename _ => some filename
  | Event.ofstream_write filename _ _ => some filename
  | Event.ofstream_close filename _ => some filename
  | _ => none

/-- The paths of the output files touched in a history, one entry for every
operation, in order. -/
def outputPaths (h : List Event) : List String :=
  h.filterMap Event.outputPath

/-- The analyzer invocation at the head of `Run`: the driver chosen by a
recognized selector, started with an empty `output_graph` and an empty
history; `none` when the selector is unset or not recognized. -/
def SelectAndRun (E : Env) (options : AnalysisOptions) :
    Option (Status × String × List Event) :=
  if options.analyzer_ = some "curio" then some (RunCurioAnalyzer E options "" [])
  else if options.analyzer_ = some "mail" then some (RunMailAccessAnalyzer E options "" [])
  else if options.analyzer_ = some "plaso" then some (RunPlasoAnalyzer E options "" [])
  else none

/-! ## Concrete worlds for the examples -/

/-- A world given by the paths that open for reading, the paths that do not
open for writing, the status every `Initialize` returns, the status every
build step returns, and the DOT and the structured text of the graph.  Writes
and closes succeed. -/
def testEnv (readable unwritable : List String) (init build : Status)
    (dot pbtxt : String) : Env where
  ifstream_open := fun _ f => readable.contains f
  curio_Initialize := fun _ _ => init
  curio_BuildDependencyGraph := fun _ => build
  curio_DependencyGraphAsDot := fun _ => dot
  access_Initialize := fun _ _ => init
  access_BuildAccessGraph := fun _ => build
  access_AccessGraphAsDot := fun _ => dot
  plaso_Initialize := fun _ _ _ => init
  plaso_PlasoGraphDot := fun _ => dot
  plaso_PlasoGraphPbTxt := fun _ => pbtxt
  ofstream_open := fun _ f => !unwritable.contains f
  ofstream_write := fun _ _ _ => true
  ofstream_close := fun _ _ => true

/-- Modelled from the spec: the `Initialize` of the Curio analyzer, whose
source is not at hand, "fails with `INVALID_ARGUMENT`-class status if absent
or malformed".  In this world no file opens for reading, and the Curio
analyzer rejects in that way a document parsed from a stream that is not
open. -/
def missingJsonEnv : Env where
  ifstream_open := fun _ _ => false
  curio_Initialize := fun _ doc =>
    if doc.stream.is_open then Status.OK
    else ⟨Code.INVALID_ARGUMENT, "The JSON doc is not an object."⟩
  curio_BuildDependencyGraph := fun _ => Status.OK
  curio_DependencyGraphAsDot := fun _ => "digraph {}"
  access_Initialize := fun _ _ => Status.OK
  access_BuildAccessGraph := fun _ => Status.OK
  access_AccessGraphAsDot := fun _ => "digraph {}"
  plaso_Initialize := fun _ _ _ => Status.OK
  plaso_PlasoGraphDot := fun _ => "digraph {}"
  plaso_PlasoGraphPbTxt := fun _ => "nodes {}"
  ofstream_open := fun _ _ => true
  ofstream_write := fun _ _ _ => true
  ofstream_close := fun _ _ => true

/-! ## Supporting lemmas -/

theorem Status.ok_iff (s : Status) : s.ok = true ↔ s.code = Code.OK := by
  simp [Status.ok]

theorem Status.ok_OK : Status.OK.ok = true := rfl

/-- `Run` is the analyzer invocation followed by the writing phase. -/
theorem Run_eq_SelectAndRun (E : Env) (o : AnalysisOptions) :
    Run E o =
      match SelectAndRun E o with
      | none => (⟨Code.INVALID_ARGUMENT, kInvalidAnalyzerErr⟩, [])
      | some r => Run_write E o r := by
  unfold Run SelectAndRun
  cases ha : o.analyzer_ with
  | none => simp [AnalysisOptions.has_analyzer, ha]
  | some a =>
    simp only [AnalysisOptions.has_analyzer, AnalysisOptions.analyzer, ha, Option.isSome_some,
      Option.getD_some, Bool.not_true, Option.some.injEq, beq_iff_eq]
    by_cases h1 : a = "curio"
    · simp [h1]
    · by_cases h2 : a = "mail"
      · simp [h2]
      · by_cases h3 : a = "plaso"
        · simp [h3]
        · simp [h1, h2, h3]

/-! ## Claims -/

/-- C1: when the analyzer field is unset, or set to a string other than
exactly "curio", "mail" or "plaso", `Run` returns `INVALID_ARGUMENT` with the
message of `kInvalidAnalyzerErr`, and its history is empty: no input file was
opened, no analyzer was invoked, no output file was written, whatever the
other fields hold. -/
theorem Run_unrecognized_analyzer (E : Env) (o : AnalysisOptions)
    (h : o.analyzer_ = none ∨
      ∃ a, o.analyzer_ = some a ∧ a ≠ "curio" ∧ a ≠ "mail" ∧ a ≠ "plaso") :
    Run E o =
      (⟨Code.INVALID_ARGUMENT,
        "Invalid analysis. The analysis must be one of 'curio', 'mail', or 'plaso'."⟩, []) := by
  rw [Run_eq_SelectAndRun]
  rcases h with h | ⟨a, ha, h1, h2, h3⟩
  · simp [SelectAndRun, h, kInvalidAnalyzerErr]
  · simp [SelectAndRun, ha, h1, h2, h3, kInvalidAnalyzerErr]

/-- Witness of C1: the selector "Curio" differs from "curio" in case only and
is rejected, although an input file and both outputs are configured. -/
theorem Run_unrecognized_analyzer_witness :
    Run (testEnv ["doc.json"] [] Status.OK Status.OK "digraph {}" "nodes {}")
        ⟨some "Curio", InputFile.json_file "doc.json", none, some "out.dot", some "out.pbtxt"⟩ =
      (⟨Code.INVALID_ARGUMENT,
        "Invalid analysis. The analysis must be one of 'curio', 'mail', or 'plaso'."⟩, []) :=
  Run_unrecognized_analyzer _ _ (Or.inr ⟨"Curio", rfl, by decide, by decide, by decide⟩)

/-- C2: a "curio" configuration without `json_file`, and a "mail"
configuration without `csv_file`, make `Run` return `INVALID_ARGUMENT` with an
empty history: no file was opened for input or output and no analyzer step
(`Initialize`, build, render) was invoked. -/
theorem Run_missing_input_field (E : Env) (o : AnalysisOptions)
    (h : (o.analyzer_ = some "curio" ∧ o.has_json_file = false) ∨
      (o.analyzer_ = some "mail" ∧ o.has_csv_file = false)) :
    (Run E o).1.code = Code.INVALID_ARGUMENT ∧ (Run E o).2 = [] ∧
      (Run E o).1.message =
        (if o.analyzer_ = some "curio" then "The Curio analyzer requires a JSON input file."
         else "The access analyzer requires a CSV input file.") := by
  rw [Run_eq_SelectAndRun]
  rcases h with ⟨ha, hf⟩ | ⟨ha, hf⟩
  · simp [SelectAndRun, ha, RunCurioAnalyzer, hf, Run_write, Status.ok]
  · simp [SelectAndRun, ha, RunMailAccessAnalyzer, hf, Run_write, Status.ok]

/-- Witness of C2: "mail" with a JSON file in place of the CSV file. -/
theorem Run_missing_input_field_witness :
    (Run (testEnv ["doc.json"] [] Status.OK Status.OK "digraph {}" "nodes {}")
        ⟨some "mail", InputFile.json_file "doc.json", none, some "out.dot", none⟩).1.code =
      Code.INVALID_ARGUMENT ∧
    (Run (testEnv ["doc.json"] [] Status.OK Status.OK "digraph {}" "nodes {}")
        ⟨some "mail", InputFile.json_file "doc.json", none, some "out.dot", none⟩).2 = [] :=
  have h := Run_missing_input_field
    (testEnv ["doc.json"] [] Status.OK Status.OK "digraph {}" "nodes {}")
    ⟨some "mail", InputFile.json_file "doc.json", none, some "out.dot", none⟩
    (Or.inr ⟨rfl, rfl⟩)
  ⟨h.1, h.2.1⟩

/-- C4: when the CSV file of a "mail" configuration, or the `json_file` or
`json_stream_file` of a "plaso" configuration, does not open, `Run` returns
`EXTERNAL` with the message "Error opening file: " followed by the path; the
failed open is the only event. -/
theorem Run_input_open_failure (E : Env) (o : AnalysisOptions) (p : String)
    (h : (o.analyzer_ = some "mail" ∧ o.input_file_ = InputFile.csv_file p) ∨
      (o.analyzer_ = some "plaso" ∧
        (o.input_file_ = InputFile.json_file p ∨ o.input_file_ = InputFile.json_stream_file p)))
    (hopen : E.ifstream_open [] p = false) :
    Run E o = (⟨Code.EXTERNAL, "Error opening file: " ++ p⟩, [Event.ifstream_open p false]) := by
  rw [Run_eq_SelectAndRun]
  rcases h with ⟨ha, hf⟩ | ⟨ha, hf | hf⟩
  · simp [SelectAndRun, ha, RunMailAccessAnalyzer, AnalysisOptions.has_csv_file,
      AnalysisOptions.input_file_case, AnalysisOptions.csv_file, hf, GetCSVParser, hopen,
      Run_write, Status.ok, kOpenFileErr]
  · simp [SelectAndRun, ha, RunPlasoAnalyzer, RunPlasoAnalyzer_switch,
      AnalysisOptions.input_file_case, AnalysisOptions.json_file, hf, hopen,
      Run_write, Status.ok, kOpenFileErr]
  · simp [SelectAndRun, ha, RunPlasoAnalyzer, RunPlasoAnalyzer_switch,
      AnalysisOptions.input_file_case, AnalysisOptions.json_stream_file, hf, hopen,
      Run_write, Status.ok, kOpenFileErr]

/-- Witness of C4: "plaso" on a stream file that is not there. -/
theorem Run_input_open_failure_witness :
    Run (testEnv [] [] Status.OK Status.OK "digraph {}" "nodes {}")
        ⟨some "plaso", InputFile.json_stream_file "events.jsonl", none, none, some "out.pbtxt"⟩ =
      (⟨Code.EXTERNAL, "Error opening file: " ++ "events.jsonl"⟩,
        [Event.ifstream_open "events.jsonl" false]) :=
  Run_input_open_failure _ _ "events.jsonl" (Or.inr ⟨rfl, Or.inr rfl⟩) rfl

/-- C10: the four outcomes of `WriteToFile`, tested in the order open, write,
close.  With `opened`, `written`, `closed` the answers of the stream at the
three steps: the status is `EXTERNAL` "Error opening file: " when the open
failed, else `INTERNAL` "Error writing to file: " when the write failed, else
`EXTERNAL` "Error closing file: " when the close failed, else `OK`; the text
reaches the stream only when the open succeeded; and the status is `OK`
exactly when all three steps succeeded. -/
theorem WriteToFile_outcomes (E : Env) (h : List Event) (path text : String) :
    let h0 := h ++ [Event.WriteToFile path text]
    let opened := E.ofstream_open h0 path
    let h1 := h0 ++ [Event.ofstream_open path opened]
    let written := E.ofstream_write h1 path text
    let h2 := h1 ++ [Event.ofstream_write path text written]
    let closed := E.ofstream_close h2 path
    (WriteToFile E h path text).1 =
        (if opened = false then ⟨Code.EXTERNAL, "Error opening file: " ++ path⟩
         else if written = false then ⟨Code.INTERNAL, "Error writing to file: " ++ path⟩
         else if closed = false then ⟨Code.EXTERNAL, "Error closing file: " ++ path⟩
         else Status.OK) ∧
      streamWrites (WriteToFile E h path text).2 =
        streamWrites h ++ (if opened = false then [] else [(path, text)]) ∧
      ((WriteToFile E h path text).1.ok = true ↔
        opened = true ∧ written = true ∧ closed = true) ∧
      ((WriteToFile E h path text).1 = Status.OK ↔
        opened = true ∧ written = true ∧ closed = true) := by
  intro h0 opened h1 written h2 closed
  have e0 : E.ofstream_open (h ++ [Event.WriteToFile path text]) path = opened := rfl
  have e1 : E.ofstream_write (h ++ [Event.WriteToFile path text] ++
      [Event.ofstream_open path opened]) path text = written := rfl
  have e2 : E.ofstream_close (h ++ [Event.WriteToFile path text] ++
      [Event.ofstream_open path opened] ++ [Event.ofstream_write path text written]) path
      = closed := rfl
  simp only [WriteToFile, e0, e1, e2]
  cases opened <;> cases written <;> cases closed <;>
    simp [streamWrites, Status.ok, Status.OK, List.filterMap_append]

/-- C9 (the code at the failing inputs): a "plaso" configuration without an
input field, or with `csv_file` as its input, makes `Run` return `EXTERNAL`
with the message of `kInvalidPlasoOption`, not `INVALID_ARGUMENT`; no file is
opened. -/
theorem Run_plaso_unsupported_input (E : Env) (po : Option PlasoOptions)
    (dot pbtxt : Option String) (csv : String) :
    Run E ⟨some "plaso", InputFile.NOT_SET, po, dot, pbtxt⟩ =
        (⟨Code.EXTERNAL, "Unsupported input parameter. Plaso analyzer supports only json_file and json_stream_file."⟩, []) ∧
      Run E ⟨some "plaso", InputFile.csv_file csv, po, dot, pbtxt⟩ =
        (⟨Code.EXTERNAL, "Unsupported input parameter. Plaso analyzer supports only json_file and json_stream_file."⟩, []) := by
  constructor <;>
    simp [Run_eq_SelectAndRun, SelectAndRun, RunPlasoAnalyzer, RunPlasoAnalyzer_switch,
      AnalysisOptions.input_file_case, Run_write, Status.ok, kInvalidPlasoOption]

/-- C3 (the code at the failing input): "curio" on `missing.json`, a path that
does not open.  `GetJsonDoc` does not test the stream, the document goes to
`Initialize`, and `Run` returns the status of `Initialize`, here
`INVALID_ARGUMENT` with a message that does not name the path.  In a world
whose analyzer accepts the document, `Run` even returns `OK`.  In every world,
for a "curio" configuration without destinations, the status of `Run` is the
status of `Initialize` or of the build step, whether the path opened or not. -/
theorem Run_curio_missing_json :
    Run missingJsonEnv ⟨some "curio", InputFile.json_file "missing.json", none, none, none⟩ =
        (⟨Code.INVALID_ARGUMENT, "The JSON doc is not an object."⟩,
          [Event.ifstream_open "missing.json" false, Event.Json_parse "missing.json",
            Event.Initialize Analyzer.curio]) ∧
      (Run (testEnv [] [] Status.OK Status.OK "digraph {}" "nodes {}")
        ⟨some "curio", InputFile.json_file "missing.json", none, none, none⟩).1 = Status.OK ∧
      (∀ (E : Env) (p : String) (po : Option PlasoOptions),
        (Run E ⟨some "curio", InputFile.json_file p, po, none, none⟩).1 =
          (if (E.curio_Initialize
                [Event.ifstream_open p (E.ifstream_open [] p), Event.Json_parse p]
                ⟨⟨p, E.ifstream_open [] p⟩⟩).ok = false then
            E.curio_Initialize
              [Event.ifstream_open p (E.ifstream_open [] p), Event.Json_parse p]
              ⟨⟨p, E.ifstream_open [] p⟩⟩
          else
            E.curio_BuildDependencyGraph
              [Event.ifstream_open p (E.ifstream_open [] p), Event.Json_parse p,
                Event.Initialize Analyzer.curio])) := by
  refine ⟨?_, ?_, ?_⟩
  · simp [Run_eq_SelectAndRun, SelectAndRun, RunCurioAnalyzer, GetJsonDoc,
      AnalysisOptions.has_json_file, AnalysisOptions.input_file_case, AnalysisOptions.json_file,
      missingJsonEnv, Run_write, Status.ok]
  · simp [Run_eq_SelectAndRun, SelectAndRun, RunCurioAnalyzer, GetJsonDoc,
      AnalysisOptions.has_json_file, AnalysisOptions.input_file_case, AnalysisOptions.json_file,
      AnalysisOptions.output_dot_file, AnalysisOptions.output_pbtxt_file,
      testEnv, Run_write, Status.ok, Status.OK]
  · intro E p po
    simp only [Run_eq_SelectAndRun, SelectAndRun, RunCurioAnalyzer, GetJsonDoc,
      AnalysisOptions.has_json_file, AnalysisOptions.input_file_case, AnalysisOptions.json_file,
      AnalysisOptions.output_dot_file, AnalysisOptions.output_pbtxt_file, Run_write,
      if_true, beq_self_eq_true, Bool.not_true, Bool.false_eq_true, if_false, List.nil_append,
      List.cons_append, Option.getD_none, bne_self_eq_false, Bool.not_eq_true]
    split_ifs <;> simp_all

theorem writerCalls_WriteToFile (E : Env) (h : List Event) (f c : String) :
    writerCalls (WriteToFile E h f c).2 = writerCalls h ++ [(f, c)] := by
  unfold WriteToFile
  simp only []
  split_ifs <;> simp [writerCalls, List.filterMap_append]

theorem renders_WriteToFile (E : Env) (h : List Event) (f c : String) :
    renders (WriteToFile E h f c).2 = renders h := by
  unfold WriteToFile
  simp only []
  split_ifs <;> simp [renders, List.filterMap_append]

theorem builds_WriteToFile (E : Env) (h : List Event) (f c : String) :
    builds (WriteToFile E h f c).2 = builds h := by
  unfold WriteToFile
  simp only []
  split_ifs <;> simp [builds, List.filterMap_append]

theorem renders_Run_write (E : Env) (o : AnalysisOptions) (r : Status × String × List Event) :
    renders (Run_write E o r).2 = renders r.2.2 := by
  unfold Run_write
  simp only []
  split_ifs <;> simp [renders_WriteToFile]

theorem builds_Run_write (E : Env) (o : AnalysisOptions) (r : Status × String × List Event) :
    builds (Run_write E o r).2 = builds r.2.2 := by
  unfold Run_write
  simp only []
  split_ifs <;> simp [builds_WriteToFile]

theorem RunCurioAnalyzer_no_output (E : Env) (o : AnalysisOptions) (g : String) (h : List Event) :
    (RunCurioAnalyzer E o g h).2.2.filter Event.isOutput = h.filter Event.isOutput := by
  unfold RunCurioAnalyzer GetJsonDoc
  simp only []
  split_ifs <;> simp [List.filter_append, Event.isOutput]

theorem RunMailAccessAnalyzer_no_output (E : Env) (o : AnalysisOptions) (g : String)
    (h : List Event) :
    (RunMailAccessAnalyzer E o g h).2.2.filter Event.isOutput = h.filter Event.isOutput := by
  unfold RunMailAccessAnalyzer GetCSVParser
  simp only []
  split_ifs <;> simp [List.filter_append, Event.isOutput]

theorem RunPlasoAnalyzer_no_output (E : Env) (o : AnalysisOptions) (g : String) (h : List Event) :
    (RunPlasoAnalyzer E o g h).2.2.filter Event.isOutput = h.filter Event.isOutput := by
  unfold RunPlasoAnalyzer RunPlasoAnalyzer_switch
  simp only []
  cases o.input_file_case <;> simp only [] <;> split_ifs <;>
    simp only [Bool.not_eq_true] <;> (try split_ifs) <;>
    simp [List.filter_append, Event.isOutput]

theorem writerCalls_filter_isOutput (h : List Event) :
    writerCalls (h.filter Event.isOutput) = writerCalls h := by
  induction h with
  | nil => rfl
  | cons e t ih =>
    cases e <;> simp_all [writerCalls, List.filter_cons, Event.isOutput]

theorem SelectAndRun_no_output (E : Env) (o : AnalysisOptions)
    (r : Status × String × List Event) (h : SelectAndRun E o = some r) :
    r.2.2.filter Event.isOutput = [] := by
  unfold SelectAndRun at h
  split_ifs at h <;> simp only [Option.some.injEq] at h <;> subst h
  · simpa using RunCurioAnalyzer_no_output E o "" []
  · simpa using RunMailAccessAnalyzer_no_output E o "" []
  · simpa using RunPlasoAnalyzer_no_output E o "" []

theorem SelectAndRun_writerCalls (E : Env) (o : AnalysisOptions)
    (r : Status × String × List Event) (h : SelectAndRun E o = some r) :
    writerCalls r.2.2 = [] := by
  rw [← writerCalls_filter_isOutput, SelectAndRun_no_output E o r h]
  rfl

/-- C5: when the selected analyzer returns a status that is `ok()` and leaves
`output_graph` empty, `Run` returns that status, whose code is `OK`, and the
history of `Run` is the history of the analyzer: it holds no call of the
output writer and no operation on an output file, whatever
`output_dot_file` and `output_pbtxt_file` are. -/
theorem Run_empty_graph_writes_nothing (E : Env) (o : AnalysisOptions) (st : Status)
    (tr : List Event) (hsel : SelectAndRun E o = some (st, "", tr)) (hok : st.ok = true) :
    Run E o = (st, tr) ∧ (Run E o).1.code = Code.OK ∧ writerCalls (Run E o).2 = [] ∧
      (Run E o).2.filter Event.isOutput = [] := by
  have hrun : Run E o = (st, tr) := by
    rw [Run_eq_SelectAndRun, hsel]
    simp [Run_write, hok]
  refine ⟨hrun, ?_, ?_, ?_⟩
  · rw [hrun]; exact (Status.ok_iff st).1 hok
  · rw [hrun]; exact SelectAndRun_writerCalls E o _ hsel
  · rw [hrun]; exact SelectAndRun_no_output E o _ hsel

/-- Witness of C5: a "plaso" run whose structured text is empty, with both
destinations configured. -/
theorem Run_empty_graph_writes_nothing_witness :
    Run (testEnv ["events.jsonl"] [] Status.OK Status.OK "" "")
        ⟨some "plaso", InputFile.json_stream_file "events.jsonl", none,
          some "out.dot", some "out.pbtxt"⟩ =
      (Status.OK,
        [Event.ifstream_open "events.jsonl" true, Event.Initialize Analyzer.plaso,
          Event.Build Analyzer.plaso, Event.ifstream_close "events.jsonl",
          Event.Render Renderer.PlasoGraphDot]) :=
  (Run_empty_graph_writes_nothing _ _ Status.OK _ (by decide) rfl).1

/-- C6: when the selected analyzer returns a status that is `ok()` with a
non-empty text `t`, the writing phase of `Run` is: `WriteToFile` on
`output_dot_file` with `t` exactly when that path is not empty, then
`WriteToFile` on `output_pbtxt_file` with the same `t` exactly when that path
is not empty, the second from the history the first left behind and
whatever status the first returned.  `Run` returns the status of the last
write, or the status of the analyzer (code `OK`) when there was none.  With
both paths set, a failing first write and a second write returning `OK`,
`Run` returns `OK`. -/
theorem Run_persist (E : Env) (o : AnalysisOptions) (st : Status) (t : String)
    (tr : List Event) (hsel : SelectAndRun E o = some (st, t, tr)) (hok : st.ok = true)
    (ht : t ≠ "") :
    let d := o.output_dot_file
    let p := o.output_pbtxt_file
    let r1 := if d ≠ "" then WriteToFile E tr d t else (st, tr)
    let r2 := if p ≠ "" then WriteToFile E r1.2 p t else r1
    Run E o = r2 ∧
      writerCalls (Run E o).2 =
        (if d ≠ "" then [(d, t)] else []) ++ (if p ≠ "" then [(p, t)] else []) ∧
      (p ≠ "" → (Run E o).1 = (WriteToFile E r1.2 p t).1) ∧
      (d ≠ "" → p = "" → (Run E o).1 = (WriteToFile E tr d t).1) ∧
      (d = "" → p = "" → Run E o = (st, tr) ∧ st.code = Code.OK) ∧
      (d ≠ "" → p ≠ "" → (WriteToFile E tr d t).1.ok = false →
        (WriteToFile E (WriteToFile E tr d t).2 p t).1 = Status.OK →
        (Run E o).1 = Status.OK) := by
  intro d p r1 r2
  have hw := SelectAndRun_writerCalls E o _ hsel
  simp only [] at hw
  have hrun : Run E o = r2 := by
    rw [Run_eq_SelectAndRun, hsel]
    simp only [Run_write, hok, Bool.not_true, Bool.false_or, beq_iff_eq, ht, if_false,
      bne_iff_ne, ne_eq, r2, r1, d, p]
  refine ⟨hrun, ?_, ?_, ?_, ?_, ?_⟩
  · rw [hrun]
    simp only [r2, r1]
    split_ifs <;> simp [writerCalls_WriteToFile, hw]
  · intro hp
    rw [hrun]
    simp only [r2, hp, ne_eq, not_false_eq_true, if_true]
  · intro hd hp
    rw [hrun]
    simp only [r2, r1, hp, hd, ne_eq, not_true_eq_false, not_false_eq_true, if_true, if_false]
  · intro hd hp
    rw [hrun]
    simp only [r2, r1, hp, hd, ne_eq, not_true_eq_false, if_false, true_and]
    exact (Status.ok_iff st).1 hok
  · intro hd hp _ h2
    rw [hrun]
    simp only [r2, r1, hp, hd, ne_eq, not_false_eq_true, if_true]
    exact h2

/-- Witness of C6: a "mail" run with both destinations set, where `out.dot` does
not open for writing and `out.pbtxt` does: `Run` returns `OK`. -/
theorem Run_persist_witness :
    (Run (testEnv ["access.csv"] ["out.dot"] Status.OK Status.OK "digraph {}" "nodes {}")
        ⟨some "mail", InputFile.csv_file "access.csv", none,
          some "out.dot", some "out.pbtxt"⟩).1 = Status.OK :=
  (Run_persist (testEnv ["access.csv"] ["out.dot"] Status.OK Status.OK "digraph {}" "nodes {}")
      ⟨some "mail", InputFile.csv_file "access.csv", none, some "out.dot", some "out.pbtxt"⟩
      Status.OK "digraph {}"
      [Event.ifstream_open "access.csv" true, Event.Initialize Analyzer.mail,
        Event.Build Analyzer.mail, Event.Render Renderer.AccessGraphAsDot]
      (by decide) rfl (by decide)).2.2.2.2.2 (by decide) (by decide) (by decide) (by decide)

/-- C7: a failure of input acquisition or of `Initialize` ends the run before
the build step, and a failure of the build step of "curio" or "mail" ends it
before rendering; in each case `Run` returns the failing status itself, and
the history ends at the failing step, so that neither a later step nor the
output writer was invoked.  `p` is the path of the input field. -/
theorem Run_failure_short_circuit (E : Env) (o : AnalysisOptions) (p : String) :
    (o.analyzer_ = some "curio" → o.input_file_ = InputFile.json_file p →
      let doc : JsonDoc := ⟨⟨p, E.ifstream_open [] p⟩⟩
      let h1 := [Event.ifstream_open p (E.ifstream_open [] p), Event.Json_parse p]
      let s := E.curio_Initialize h1 doc
      let h2 := h1 ++ [Event.Initialize Analyzer.curio]
      let b := E.curio_BuildDependencyGraph h2
      let h3 := h2 ++ [Event.Build Analyzer.curio]
      (s.ok = false →
        Run E o = (s, h2) ∧ builds h2 = [] ∧ renders h2 = [] ∧ writerCalls h2 = []) ∧
      (s.ok = true → b.ok = false →
        Run E o = (b, h3) ∧ renders h3 = [] ∧ writerCalls h3 = [])) ∧
    (o.analyzer_ = some "mail" → o.input_file_ = InputFile.csv_file p →
      let a := GetCSVParser E [] p
      let s := E.access_Initialize a.2 a.1.2
      let h2 := a.2 ++ [Event.Initialize Analyzer.mail]
      let b := E.access_BuildAccessGraph h2
      let h3 := h2 ++ [Event.Build Analyzer.mail]
      (a.1.1.ok = false →
        Run E o = (a.1.1, a.2) ∧ a.2 = [Event.ifstream_open p false]) ∧
      (a.1.1.ok = true → s.ok = false →
        Run E o = (s, h2) ∧ builds h2 = [] ∧ renders h2 = [] ∧ writerCalls h2 = []) ∧
      (a.1.1.ok = true → s.ok = true → b.ok = false →
        Run E o = (b, h3) ∧ renders h3 = [] ∧ writerCalls h3 = [])) ∧
    (o.analyzer_ = some "plaso" →
      (o.input_file_ = InputFile.json_file p ∨ o.input_file_ = InputFile.json_stream_file p) →
      let show_all_sources :=
        if o.has_plaso_options then o.plaso_options.show_all_sources else false
      let reader :=
        if o.input_file_ = InputFile.json_file p then PlasoInput.FullJson ⟨p, true⟩
        else PlasoInput.StreamJson ⟨p, true⟩
      let h1 := [Event.ifstream_open p true]
      let s := E.plaso_Initialize h1 show_all_sources reader
      let h2 := h1 ++ [Event.Initialize Analyzer.plaso]
      (E.ifstream_open [] p = false →
        Run E o = ((RunPlasoAnalyzer E o "" []).1, [Event.ifstream_open p false]) ∧
        (RunPlasoAnalyzer E o "" []).1.ok = false) ∧
      (E.ifstream_open [] p = true → s.ok = false →
        Run E o = (s, h2) ∧ builds h2 = [] ∧ renders h2 = [] ∧ writerCalls h2 = [])) := by
  refine ⟨?_, ?_, ?_⟩
  · intro ha hf doc h1 s h2 b h3
    have e1 : E.curio_Initialize
        [Event.ifstream_open p (E.ifstream_open [] p), Event.Json_parse p]
        ⟨⟨p, E.ifstream_open [] p⟩⟩ = s := rfl
    have e2 : E.curio_BuildDependencyGraph
        [Event.ifstream_open p (E.ifstream_open [] p), Event.Json_parse p,
          Event.Initialize Analyzer.curio] = b := rfl
    refine ⟨fun hs => ⟨?_, ?_⟩, fun hs hb => ⟨?_, ?_⟩⟩
    · simp [Run_eq_SelectAndRun, SelectAndRun, ha, RunCurioAnalyzer, GetJsonDoc,
        AnalysisOptions.has_json_file, AnalysisOptions.input_file_case,
        AnalysisOptions.json_file, hf, e1, hs, Run_write, h2, h1]
    · simp [h2, h1, builds, renders, writerCalls]
    · simp [Run_eq_SelectAndRun, SelectAndRun, ha, RunCurioAnalyzer, GetJsonDoc,
        AnalysisOptions.has_json_file, AnalysisOptions.input_file_case,
        AnalysisOptions.json_file, hf, e1, e2, hs, hb, Run_write, h3, h2, h1]
    · simp [h3, h2, h1, renders, writerCalls]
  · intro ha hf a s h2 b h3
    cases hopen : E.ifstream_open [] p
    · have ea : a = ((⟨Code.EXTERNAL, kOpenFileErr ++ p⟩, none), [Event.ifstream_open p false]) := by
        simp [a, GetCSVParser, hopen]
      refine ⟨fun _ => ⟨?_, ?_⟩, fun hs => ?_, fun hs => ?_⟩
      · simp [Run_eq_SelectAndRun, SelectAndRun, ha, RunMailAccessAnalyzer, ea, GetCSVParser,
          AnalysisOptions.has_csv_file, AnalysisOptions.input_file_case,
          AnalysisOptions.csv_file, hf, hopen, Run_write, Status.ok]
      · simp [ea]
      · simp [ea, Status.ok] at hs
      · simp [ea, Status.ok] at hs
    · have ea : a = ((Status.OK, some ⟨⟨p, true⟩⟩), [Event.ifstream_open p true]) := by
        simp [a, GetCSVParser, hopen]
      have e1 : E.access_Initialize [Event.ifstream_open p true] (some ⟨⟨p, true⟩⟩) = s := by
        simp [s, ea]
      have e2 : E.access_BuildAccessGraph
          [Event.ifstream_open p true, Event.Initialize Analyzer.mail] = b := by
        simp [b, h2, ea]
      refine ⟨fun hs => ?_, fun _ hs => ⟨?_, ?_⟩, fun _ hs hb => ⟨?_, ?_⟩⟩
      · simp [ea, Status.ok, Status.OK] at hs
      · simp [Run_eq_SelectAndRun, SelectAndRun, ha, RunMailAccessAnalyzer, GetCSVParser,
          AnalysisOptions.has_csv_file, AnalysisOptions.input_file_case,
          AnalysisOptions.csv_file, hf, hopen, e1, hs, Run_write, h2, ea, Status.ok_OK]
      · simp [h2, ea, builds, renders, writerCalls]
      · simp [Run_eq_SelectAndRun, SelectAndRun, ha, RunMailAccessAnalyzer, GetCSVParser,
          AnalysisOptions.has_csv_file, AnalysisOptions.input_file_case,
          AnalysisOptions.csv_file, hf, hopen, e1, e2, hs, hb, Run_write, h3, h2, ea,
          Status.ok_OK]
      · simp [h3, h2, ea, renders, writerCalls]
  · intro ha hf show_all_sources reader h1 s h2
    refine ⟨fun hopen => ?_, fun hopen hs => ⟨?_, ?_⟩⟩
    · rcases hf with hf | hf <;>
        simp [Run_eq_SelectAndRun, SelectAndRun, ha, RunPlasoAnalyzer, RunPlasoAnalyzer_switch,
          AnalysisOptions.input_file_case, AnalysisOptions.json_file,
          AnalysisOptions.json_stream_file, hf, hopen, Run_write, Status.ok]
    · rcases hf with hf | hf
      · have e1 : E.plaso_Initialize [Event.ifstream_open p true]
            (o.has_plaso_options && o.plaso_options.show_all_sources)
            (PlasoInput.FullJson ⟨p, true⟩) = s := by
          simp [s, reader, hf, show_all_sources, h1]
        simp [Run_eq_SelectAndRun, SelectAndRun, ha, RunPlasoAnalyzer, RunPlasoAnalyzer_switch,
          AnalysisOptions.input_file_case, AnalysisOptions.json_file,
          hf, hopen, e1, hs, Run_write, h2, h1]
      · have e1 : E.plaso_Initialize [Event.ifstream_open p true]
            (o.has_plaso_options && o.plaso_options.show_all_sources)
            (PlasoInput.StreamJson ⟨p, true⟩) = s := by
          simp [s, reader, hf, show_all_sources, h1]
        simp [Run_eq_SelectAndRun, SelectAndRun, ha, RunPlasoAnalyzer, RunPlasoAnalyzer_switch,
          AnalysisOptions.input_file_case, AnalysisOptions.json_stream_file,
          hf, hopen, e1, hs, Run_write, h2, h1]
    · simp [h2, h1, builds, renders, writerCalls]

/-- Witness of C7: a "mail" run whose `Initialize` rejects the rows; the status
comes back unchanged and the history ends at `Initialize`. -/
theorem Run_failure_short_circuit_witness :
    Run (testEnv ["access.csv"] [] ⟨Code.INVALID_ARGUMENT, "bad header"⟩ Status.OK
          "digraph {}" "nodes {}")
        ⟨some "mail", InputFile.csv_file "access.csv", none, some "out.dot", none⟩ =
      (⟨Code.INVALID_ARGUMENT, "bad header"⟩,
        [Event.ifstream_open "access.csv" true, Event.Initialize Analyzer.mail]) :=
  (((Run_failure_short_circuit
      (testEnv ["access.csv"] [] ⟨Code.INVALID_ARGUMENT, "bad header"⟩ Status.OK
        "digraph {}" "nodes {}")
      ⟨some "mail", InputFile.csv_file "access.csv", none, some "out.dot", none⟩
      "access.csv").2.1 rfl rfl).2.1 (by decide) (by decide)).1

/-- The renderers invoked by `RunPlasoAnalyzer` from an empty history: none
when the run ends before the build step, otherwise the one selected by the
presence of the output fields. -/
theorem renders_RunPlasoAnalyzer (E : Env) (o : AnalysisOptions) (g : String) :
    (builds (RunPlasoAnalyzer E o g []).2.2 = [] ∧ renders (RunPlasoAnalyzer E o g []).2.2 = []) ∨
    (builds (RunPlasoAnalyzer E o g []).2.2 = [Analyzer.plaso] ∧
      renders (RunPlasoAnalyzer E o g []).2.2 =
        (if o.has_output_dot_file then [Renderer.PlasoGraphDot]
         else if o.has_output_pbtxt_file then [Renderer.PlasoGraphPbTxt] else [])) := by
  unfold RunPlasoAnalyzer RunPlasoAnalyzer_switch
  simp only []
  cases o.input_file_case <;> simp only [] <;> split_ifs <;>
    (try simp only [Bool.not_eq_true]) <;> (try split_ifs) <;>
    simp [builds, renders]

/-- The result of `WriteToFile` in full: the status and the history for each of
the four ways the three stream steps can go. -/
theorem WriteToFile_history (E : Env) (h : List Event) (path text : String) :
    let h0 := h ++ [Event.WriteToFile path text]
    let opened := E.ofstream_open h0 path
    let h1 := h0 ++ [Event.ofstream_open path opened]
    let written := E.ofstream_write h1 path text
    let h2 := h1 ++ [Event.ofstream_write path text written]
    let closed := E.ofstream_close h2 path
    let h3 := h2 ++ [Event.ofstream_close path closed]
    WriteToFile E h path text =
      (if opened = false then (⟨Code.EXTERNAL, "Error opening file: " ++ path⟩, h1)
       else if written = false then (⟨Code.INTERNAL, "Error writing to file: " ++ path⟩, h2)
       else if closed = false then (⟨Code.EXTERNAL, "Error closing file: " ++ path⟩, h3)
       else (Status.OK, h3)) := by
  intro h0 opened h1 written h2 closed h3
  simp only [WriteToFile, Bool.not_eq_true']

/-- The result of `RunPlasoAnalyzer` from an empty history when the input
opens and `Initialize` succeeds: the build step and the close of the input
are followed by the one renderer the presence of the output fields selects. -/
theorem RunPlasoAnalyzer_reaches_render (E : Env) (o : AnalysisOptions) (p : String)
    (hf : o.input_file_ = InputFile.json_file p ∨ o.input_file_ = InputFile.json_stream_file p)
    (hopen : E.ifstream_open [] p = true)
    (hinit : (E.plaso_Initialize [Event.ifstream_open p true]
        (if o.has_plaso_options then o.plaso_options.show_all_sources else false)
        (if o.input_file_ = InputFile.json_file p then PlasoInput.FullJson ⟨p, true⟩
         else PlasoInput.StreamJson ⟨p, true⟩)).ok = true) :
    RunPlasoAnalyzer E o "" [] =
      (Status.OK,
        (if o.has_output_dot_file then
          E.plaso_PlasoGraphDot [Event.ifstream_open p true, Event.Initialize Analyzer.plaso,
            Event.Build Analyzer.plaso, Event.ifstream_close p]
         else if o.has_output_pbtxt_file then
          E.plaso_PlasoGraphPbTxt [Event.ifstream_open p true, Event.Initialize Analyzer.plaso,
            Event.Build Analyzer.plaso, Event.ifstream_close p]
         else ""),
        [Event.ifstream_open p true, Event.Initialize Analyzer.plaso,
            Event.Build Analyzer.plaso, Event.ifstream_close p] ++
          (if o.has_output_dot_file then [Event.Render Renderer.PlasoGraphDot]
           else if o.has_output_pbtxt_file then [Event.Render Renderer.PlasoGraphPbTxt]
           else [])) := by
  rcases hf with hf | hf
  · simp [hf] at hinit
    simp only [RunPlasoAnalyzer, RunPlasoAnalyzer_switch, AnalysisOptions.input_file_case,
      AnalysisOptions.json_file, hf, hopen]
    simp [hinit]
    split_ifs <;> simp
  · simp [hf] at hinit
    simp only [RunPlasoAnalyzer, RunPlasoAnalyzer_switch, AnalysisOptions.input_file_case,
      AnalysisOptions.json_stream_file, hf, hopen]
    simp [hinit]
    split_ifs <;> simp

/-- The result of `RunPlasoAnalyzer` from an empty history when the input is
not a JSON file or a JSON stream file, does not open, or is refused by
`Initialize`: neither the build step nor a renderer is invoked. -/
theorem RunPlasoAnalyzer_stops_early (E : Env) (o : AnalysisOptions)
    (h : o.input_file_ = InputFile.NOT_SET ∨ (∃ c, o.input_file_ = InputFile.csv_file c) ∨
      ∃ p, (o.input_file_ = InputFile.json_file p ∨
          o.input_file_ = InputFile.json_stream_file p) ∧
        (E.ifstream_open [] p = false ∨
          (E.plaso_Initialize [Event.ifstream_open p true]
            (if o.has_plaso_options then o.plaso_options.show_all_sources else false)
            (if o.input_file_ = InputFile.json_file p then PlasoInput.FullJson ⟨p, true⟩
             else PlasoInput.StreamJson ⟨p, true⟩)).ok = false)) :
    builds (RunPlasoAnalyzer E o "" []).2.2 = [] ∧
      renders (RunPlasoAnalyzer E o "" []).2.2 = [] := by
  rcases h with h | ⟨c, h⟩ | ⟨p, hf | hf, hfail⟩
  · simp [RunPlasoAnalyzer, RunPlasoAnalyzer_switch, AnalysisOptions.input_file_case, h,
      builds, renders]
  · simp [RunPlasoAnalyzer, RunPlasoAnalyzer_switch, AnalysisOptions.input_file_case, h,
      builds, renders]
  · cases hopen : E.ifstream_open [] p
    · simp [RunPlasoAnalyzer, RunPlasoAnalyzer_switch, AnalysisOptions.input_file_case,
        AnalysisOptions.json_file, hf, hopen, builds, renders]
    · simp [hf, hopen] at hfail
      simp [RunPlasoAnalyzer, RunPlasoAnalyzer_switch, AnalysisOptions.input_file_case,
        AnalysisOptions.json_file, hf, hopen, hfail, builds, renders]
  · cases hopen : E.ifstream_open [] p
    · simp [RunPlasoAnalyzer, RunPlasoAnalyzer_switch, AnalysisOptions.input_file_case,
        AnalysisOptions.json_stream_file, hf, hopen, builds, renders]
    · simp [hf, hopen] at hfail
      simp [RunPlasoAnalyzer, RunPlasoAnalyzer_switch, AnalysisOptions.input_file_case,
        AnalysisOptions.json_stream_file, hf, hopen, hfail, builds, renders]

/-- C8: in a "plaso" run at most one of the two renderers is invoked.  When the
input (`json_file` or `json_stream_file`) opens and `Initialize` succeeds, the
build step runs and the renderer invoked is `PlasoGraphDot` when
`output_dot_file` is present, otherwise `PlasoGraphPbTxt` when
`output_pbtxt_file` is present, otherwise none, and `output_graph` is the text
that renderer returned; in every other run neither the build step nor a
renderer is invoked.  With `output_dot_file` unset and `output_pbtxt_file`
set to a non-empty `q`, the text `t` is the structured text, the only renderer
invoked is `PlasoGraphPbTxt`, and a non-empty `t` is written by one call of
the writer, to `q`: the history of `Run` continues with the open of `q`, the
write of `t` to the stream of `q` when the open succeeded, and the close when
the write succeeded; `q` is the only output path touched, and when the three
steps succeed `Run` returns `OK`. -/
theorem Run_plaso_render_selection (E : Env) (o : AnalysisOptions)
    (ha : o.analyzer_ = some "plaso") :
    ((builds (Run E o).2 = [] ∧ renders (Run E o).2 = []) ∨
      (builds (Run E o).2 = [Analyzer.plaso] ∧
        renders (Run E o).2 =
          (if o.has_output_dot_file then [Renderer.PlasoGraphDot]
           else if o.has_output_pbtxt_file then [Renderer.PlasoGraphPbTxt] else []))) ∧
    (∀ p q : String,
      (o.input_file_ = InputFile.json_file p ∨ o.input_file_ = InputFile.json_stream_file p) →
      E.ifstream_open [] p = true →
      (E.plaso_Initialize [Event.ifstream_open p true]
        (if o.has_plaso_options then o.plaso_options.show_all_sources else false)
        (if o.input_file_ = InputFile.json_file p then PlasoInput.FullJson ⟨p, true⟩
         else PlasoInput.StreamJson ⟨p, true⟩)).ok = true →
      o.output_dot_file_ = none → o.output_pbtxt_file_ = some q → q ≠ "" →
      let h3 := [Event.ifstream_open p true, Event.Initialize Analyzer.plaso,
        Event.Build Analyzer.plaso, Event.ifstream_close p]
      let t := E.plaso_PlasoGraphPbTxt h3
      let h4 := h3 ++ [Event.Render Renderer.PlasoGraphPbTxt]
      RunPlasoAnalyzer E o "" [] = (Status.OK, t, h4) ∧
        renders (Run E o).2 = [Renderer.PlasoGraphPbTxt] ∧
        (t ≠ "" → Run E o = WriteToFile E h4 q t ∧ writerCalls (Run E o).2 = [(q, t)]) ∧
        (t = "" → Run E o = (Status.OK, h4)) ∧
        (t ≠ "" →
          let h5 := h4 ++ [Event.WriteToFile q t]
          let opened := E.ofstream_open h5 q
          let h6 := h5 ++ [Event.ofstream_open q opened]
          let written := E.ofstream_write h6 q t
          let h7 := h6 ++ [Event.ofstream_write q t written]
          let closed := E.ofstream_close h7 q
          let h8 := h7 ++ [Event.ofstream_close q closed]
          (Run E o).2 =
              (if opened = false then h6 else if written = false then h7 else h8) ∧
            streamWrites (Run E o).2 = (if opened = false then [] else [(q, t)]) ∧
            (∀ f ∈ outputPaths (Run E o).2, f = q) ∧
            (Run E o).1 =
              (if opened = false then ⟨Code.EXTERNAL, "Error opening file: " ++ q⟩
               else if written = false then ⟨Code.INTERNAL, "Error writing to file: " ++ q⟩
               else if closed = false then ⟨Code.EXTERNAL, "Error closing file: " ++ q⟩
               else Status.OK) ∧
            (opened = true → written = true → closed = true →
              Run E o =
                (Status.OK,
                  [Event.ifstream_open p true, Event.Initialize Analyzer.plaso,
                    Event.Build Analyzer.plaso, Event.ifstream_close p,
                    Event.Render Renderer.PlasoGraphPbTxt, Event.WriteToFile q t,
                    Event.ofstream_open q true, Event.ofstream_write q t true,
                    Event.ofstream_close q true])))) ∧
    (∀ p : String,
      (o.input_file_ = InputFile.json_file p ∨ o.input_file_ = InputFile.json_stream_file p) →
      E.ifstream_open [] p = true →
      (E.plaso_Initialize [Event.ifstream_open p true]
        (if o.has_plaso_options then o.plaso_options.show_all_sources else false)
        (if o.input_file_ = InputFile.json_file p then PlasoInput.FullJson ⟨p, true⟩
         else PlasoInput.StreamJson ⟨p, true⟩)).ok = true →
      let h3 := [Event.ifstream_open p true, Event.Initialize Analyzer.plaso,
        Event.Build Analyzer.plaso, Event.ifstream_close p]
      builds (Run E o).2 = [Analyzer.plaso] ∧
        renders (Run E o).2 =
          (if o.has_output_dot_file then [Renderer.PlasoGraphDot]
           else if o.has_output_pbtxt_file then [Renderer.PlasoGraphPbTxt] else []) ∧
        RunPlasoAnalyzer E o "" [] =
          (Status.OK,
            (if o.has_output_dot_file then E.plaso_PlasoGraphDot h3
             else if o.has_output_pbtxt_file then E.plaso_PlasoGraphPbTxt h3 else ""),
            h3 ++
              (if o.has_output_dot_file then [Event.Render Renderer.PlasoGraphDot]
               else if o.has_output_pbtxt_file then [Event.Render Renderer.PlasoGraphPbTxt]
               else []))) ∧
    ((o.input_file_ = InputFile.NOT_SET ∨ (∃ c, o.input_file_ = InputFile.csv_file c) ∨
        ∃ p, (o.input_file_ = InputFile.json_file p ∨
            o.input_file_ = InputFile.json_stream_file p) ∧
          (E.ifstream_open [] p = false ∨
            (E.plaso_Initialize [Event.ifstream_open p true]
              (if o.has_plaso_options then o.plaso_options.show_all_sources else false)
              (if o.input_file_ = InputFile.json_file p then PlasoInput.FullJson ⟨p, true⟩
               else PlasoInput.StreamJson ⟨p, true⟩)).ok = false)) →
      builds (Run E o).2 = [] ∧ renders (Run E o).2 = []) := by
  have hrun : Run E o = Run_write E o (RunPlasoAnalyzer E o "" []) := by
    simp [Run_eq_SelectAndRun, SelectAndRun, ha]
  refine ⟨?_, ?_, ?_, ?_⟩
  · rw [hrun, renders_Run_write, builds_Run_write]
    exact renders_RunPlasoAnalyzer E o ""
  · intro p q hf hopen hinit hdot hpb hq h3 t h4
    have hdriver : RunPlasoAnalyzer E o "" [] = (Status.OK, t, h4) := by
      rw [RunPlasoAnalyzer_reaches_render E o p hf hopen hinit]
      simp [AnalysisOptions.has_output_dot_file, AnalysisOptions.has_output_pbtxt_file, hdot,
        hpb, t, h4, h3]
    have hr4 : renders h4 = [Renderer.PlasoGraphPbTxt] := by simp [h4, h3, renders]
    have hw4 : writerCalls h4 = [] := by simp [h4, h3, writerCalls]
    have hs4 : streamWrites h4 = [] := by simp [h4, h3, streamWrites]
    have hp4 : outputPaths h4 = [] := by simp [h4, h3, outputPaths, Event.outputPath]
    have hW : t ≠ "" → Run E o = WriteToFile E h4 q t := by
      intro ht
      rw [hrun, hdriver]
      simp [Run_write, Status.ok_OK, ht, AnalysisOptions.output_dot_file,
        AnalysisOptions.output_pbtxt_file, hdot, hpb, hq]
    refine ⟨hdriver, ?_, ?_, ?_, ?_⟩
    · rw [hrun, renders_Run_write, hdriver]
      exact hr4
    · intro ht
      refine ⟨hW ht, ?_⟩
      rw [hW ht, writerCalls_WriteToFile, hw4]
      rfl
    · intro ht
      rw [hrun, hdriver]
      simp [Run_write, ht]
    · intro ht h5 opened h6 written h7 closed h8
      have hp4f : List.filterMap Event.outputPath h4 = [] := hp4
      have hs4f : List.filterMap (fun e =>
          match e with
          | Event.ofstream_write filename contents _ => some (filename, contents)
          | _ => none) h4 = [] := hs4
      have hh : h4 = [Event.ifstream_open p true, Event.Initialize Analyzer.plaso,
          Event.Build Analyzer.plaso, Event.ifstream_close p,
          Event.Render Renderer.PlasoGraphPbTxt] := rfl
      have hwf : WriteToFile E h4 q t =
          (if opened = false then (⟨Code.EXTERNAL, "Error opening file: " ++ q⟩, h6)
           else if written = false then (⟨Code.INTERNAL, "Error writing to file: " ++ q⟩, h7)
           else if closed = false then (⟨Code.EXTERNAL, "Error closing file: " ++ q⟩, h8)
           else (Status.OK, h8)) := WriteToFile_history E h4 q t
      rw [hW ht, hwf]
      rcases Bool.eq_false_or_eq_true opened with ho | ho <;>
        rcases Bool.eq_false_or_eq_true written with hwr | hwr <;>
        rcases Bool.eq_false_or_eq_true closed with hc | hc <;>
        simp [ho, hwr, hc, h8, h7, h6, h5, hh, streamWrites, outputPaths, Event.outputPath,
          Status.OK]
  · intro p hf hopen hinit h3
    have hdriver := RunPlasoAnalyzer_reaches_render E o p hf hopen hinit
    refine ⟨?_, ?_, hdriver⟩
    · rw [hrun, builds_Run_write, hdriver]
      simp only [builds]
      split_ifs <;> simp
    · rw [hrun, renders_Run_write, hdriver]
      simp only [renders]
      split_ifs <;> simp
  · intro h
    rw [hrun, renders_Run_write, builds_Run_write]
    exact RunPlasoAnalyzer_stops_early E o h

/-- Witness of C8: the configuration "plaso" on `events.jsonl` with
`out.pbtxt` as the only destination renders the structured text only and
writes it to `out.pbtxt`; with `out.dot` as a destination as well, the
renderer invoked is `PlasoGraphDot`. -/
theorem Run_plaso_render_selection_witness :
    Run (testEnv ["events.jsonl"] [] Status.OK Status.OK "digraph {}" "nodes {}")
        ⟨some "plaso", InputFile.json_stream_file "events.jsonl", none, none,
          some "out.pbtxt"⟩ =
      (Status.OK,
        [Event.ifstream_open "events.jsonl" true, Event.Initialize Analyzer.plaso,
          Event.Build Analyzer.plaso, Event.ifstream_close "events.jsonl",
          Event.Render Renderer.PlasoGraphPbTxt, Event.WriteToFile "out.pbtxt" "nodes {}",
          Event.ofstream_open "out.pbtxt" true,
          Event.ofstream_write "out.pbtxt" "nodes {}" true,
          Event.ofstream_close "out.pbtxt" true]) ∧
    renders
      (Run (testEnv ["events.jsonl"] [] Status.OK Status.OK "digraph {}" "nodes {}")
        ⟨some "plaso", InputFile.json_file "events.jsonl", none, some "out.dot",
          some "out.pbtxt"⟩).2 = [Renderer.PlasoGraphDot] :=
  ⟨(((Run_plaso_render_selection
      (testEnv ["events.jsonl"] [] Status.OK Status.OK "digraph {}" "nodes {}")
      ⟨some "plaso", InputFile.json_stream_file "events.jsonl", none, none, some "out.pbtxt"⟩
      rfl).2.1 "events.jsonl" "out.pbtxt" (Or.inr rfl) (by decide) (by decide) rfl rfl
      (by decide)).2.2.2.2 (by decide)).2.2.2.2 (by decide) (by decide) (by decide),
   ((Run_plaso_render_selection
      (testEnv ["events.jsonl"] [] Status.OK Status.OK "digraph {}" "nodes {}")
      ⟨some "plaso", InputFile.json_file "events.jsonl", none, some "out.dot",
        some "out.pbtxt"⟩
      rfl).2.2.1 "events.jsonl" (Or.inl rfl) (by decide) (by decide)).2.1⟩

end morphie
